import Mathlib

set_option maxRecDepth 8192

/-!
Verification of the natural-language specification of the `crashme`
connection-to-process gateway (`cmd/crashme/main.go`) and of the scoring
module (`internal/scorer/scorer.go`) against a shallow Lean embedding of
the Go source.  External effects (the network connection, the filesystem,
the child process, the HTTP flag service, the semaphore outcome and wall
clock) are supplied by an explicit environment record; the control flow,
the strings written to the connection and the classification logic are
translated statement by statement from the source.

String computations are carried out on the underlying character lists so
that every definition evaluates inside the kernel.
-/

instance {α β : Type} [DecidableEq α] [DecidableEq β] : DecidableEq (Except α β)
  | .ok a, .ok b =>
    if h : a = b then .isTrue (by rw [h]) else .isFalse (by simp [h])
  | .ok _, .error _ => .isFalse (by simp)
  | .error _, .ok _ => .isFalse (by simp)
  | .error a, .error b =>
    if h : a = b then .isTrue (by rw [h]) else .isFalse (by simp [h])

namespace Crashme

/-- `MAX_INPUT_SIZE` from main.go:144 (10 MiB cap on the whole input). -/
def MAX_INPUT_SIZE : Nat := 10 * 1024 * 1024

/-- `MAX_FIRST_LINE_SIZE` from main.go:145 (cap on the task line). -/
def MAX_FIRST_LINE_SIZE : Nat := 100

/-- `os.Interrupt` = `syscall.SIGINT` = signal number 2; `WaitStatus.Signal()`
returns -1 when the process was not terminated by a signal. -/
def sigInterrupt : Int := 2

/-- ASCII fragment of Go's `unicode.IsSpace`, as used by `strings.TrimSpace`
(main.go:207).  The model restricts inputs to ASCII, where the two agree. -/
def goIsSpace (c : Char) : Bool :=
  c = ' ' || c = '\t' || c = '\n' || c = '\r' || c = '\x0b' || c = '\x0c'

/-- `strings.TrimSpace` on an ASCII character list. -/
def goTrimSpace (l : List Char) : List Char :=
  ((l.dropWhile goIsSpace).reverse.dropWhile goIsSpace).reverse

/-- `strings.ReplaceAll s old new` for single-character `old`/`new`
(main.go:231-232 only replaces `"_"`/`"-"`), which is a character map. -/
def replaceChar (a b : Char) (s : String) : String :=
  String.mk (s.data.map fun c => if c = a then b else c)

/-- Substring test (used to state which report strings contain which). -/
def containsSub (hay needle : String) : Bool :=
  (List.range (hay.data.length + 1)).any fun i =>
    decide (((hay.data.drop i).take needle.data.length) = needle.data)

/-! ### Go `path.Clean` / `path.Join`

`path.Clean` (Go stdlib `path/path.go`) applies, repeatedly until done:
replace multiple slashes with one, eliminate `.` elements, eliminate each
inner `..` together with the preceding non-`..` element, and eliminate
`..` elements that begin a rooted path.  The component-stack rendition
below implements exactly that specification. -/

/-- Split a character list at `'/'` boundaries. -/
def splitSlashAux : List Char → List Char → List (List Char)
  | [], cur => [cur.reverse]
  | c :: rest, cur =>
    if c = '/' then cur.reverse :: splitSlashAux rest []
    else splitSlashAux rest (c :: cur)

def splitSlash (l : List Char) : List (List Char) := splitSlashAux l []

/-- The component stack of `path.Clean`: `out` is the processed prefix in
reverse; `..` pops a preceding non-`..` component, is dropped at the root
of a rooted path, and is kept (stacked) at the front of a relative path. -/
def cleanComps (rooted : Bool) : List (List Char) → List (List Char) → List (List Char)
  | out, [] => out
  | out, c :: rest =>
    if c = ['.', '.'] then
      match out with
      | [] => if rooted then cleanComps rooted [] rest
              else cleanComps rooted [['.', '.']] rest
      | o :: out' =>
        if o = ['.', '.'] then cleanComps rooted (['.', '.'] :: o :: out') rest
        else cleanComps rooted out' rest
    else cleanComps rooted (c :: out) rest

/-- Interleave path components with `'/'`. -/
def joinSlash : List (List Char) → List Char
  | [] => []
  | [c] => c
  | c :: rest => c ++ '/' :: joinSlash rest

/-- Go `path.Clean`. -/
def goPathClean (p : String) : String :=
  if p.data = [] then "."
  else
    let rooted := p.data.head? == some '/'
    let comps := (splitSlash p.data).filter fun c => ¬(c = [] ∨ c = ['.'])
    let body := joinSlash (cleanComps rooted [] comps).reverse
    if rooted then String.mk ('/' :: body)
    else if body = [] then "." else String.mk body

/-- Go `path.Join` on two elements: skip leading empty elements, join the
rest with `"/"`, then `Clean`; all-empty input gives `""`. -/
def goPathJoin (a b : String) : String :=
  if a ≠ "" then goPathClean (a ++ "/" ++ b)
  else if b ≠ "" then goPathClean b
  else ""

/-! ### `slowReadFirstLine` (main.go:189-208)

The function reads one byte at a time from its (already length-limited)
reader until a newline; the embedding receives the byte sequence that
reader will deliver before EOF.  On EOF it reports `"too long first line"`
when exactly `MAX_FIRST_LINE_SIZE` bytes were accumulated (the 100-byte
`LimitReader` was exhausted) and `"EOF before new line"` otherwise; on a
newline it returns the accumulated line, `strings.TrimSpace`d. -/

def slowReadAux : List Char → List Char → Except String String
  | [], acc =>
    if acc.length = MAX_FIRST_LINE_SIZE then .error "too long first line"
    else .error "EOF before new line"
  | c :: rest, acc =>
    let acc' := acc ++ [c]
    if c = '\n' then .ok (String.mk (goTrimSpace acc'))
    else slowReadAux rest acc'

/-- `slowReadFirstLine`, over the byte sequence its limited reader yields. -/
def slowReadFirstLine (input : List Char) : Except String String :=
  slowReadAux input []

/-- The executable path computed in `doHandleConnection` (main.go:231-232):
`task = ReplaceAll(task, "_", "-")`, then
`path.Join(binariesDirectory, "ctf_" + ReplaceAll(task, "-", "_"))`. -/
def resolveExecutablePath (binariesDirectory task0 : String) : String :=
  let task := replaceChar '_' '-' task0
  goPathJoin binariesDirectory ("ctf_" ++ replaceChar '-' '_' task)

/-! ### The session handler `doHandleConnection` (main.go:210-285)

The handler's interactions with the outside world are recorded as an
event trace; the nondeterministic answers of the outside world (semaphore
availability, connection bytes, filesystem, child process, flag service)
are supplied up front by an `Env` record.  Error values built by
`fmt.Errorf` become strings; `%w`-wrapped causes are the wrapped error's
message. -/

/-- Result of `commandProxy.run` as observed by `doHandleConnection`:
`success` = nil error, `exitErr code signal` = an `exec.ExitError` whose
`WaitStatus` reports the given exit code and termination signal (signal
`-1` when not signalled), `otherErr` = any non-`ExitError` failure. -/
inductive RunResult where
  | success : RunResult
  | exitErr (code : Int) (signal : Int) : RunResult
  | otherErr (msg : String) : RunResult
deriving DecidableEq, Repr

/-- One observable action of the session handler. -/
inductive Event where
  | tryAcquire (ok : Bool)
  | blockAcquire (ok : Bool)
  | release
  | write (s : String)
  | statFile (p : String)
  | createFile (p : String)
  | runProcess (p : String)
  | fetchFlagCall (task : String)
deriving DecidableEq, Repr

/-- The outside world's answers for one connection. -/
structure Env where
  /-- `sema.TryAcquire(1)` (main.go:214). -/
  tryAcquireOk : Bool
  /-- `sema.Acquire(ctx, 1)` (main.go:216); `.error` = timeout/cancel. -/
  acquireResult : Except String Unit
  /-- Bytes the connection will deliver before EOF. -/
  connInput : List Char
  /-- `isRegularFile(executablePath)` (main.go:233). -/
  taskIsFile : Bool
  /-- `os.Create(inputPath)` (main.go:238). -/
  createResult : Except String Unit
  /-- `newCommandProxy` (main.go:246). -/
  proxyResult : Except String Unit
  /-- `proxy.run()` (main.go:252). -/
  runResult : RunResult
  /-- Captured child stderr, used in the start-failure report. -/
  stderrBuf : String
  /-- `exitError.ProcessState` rendering, used in the crash report. -/
  processStateStr : String
  /-- The checked `io.WriteString` before the flag fetch (main.go:264). -/
  writeResult : Except String Unit
  /-- `flagFetcher.fetchFlag(task)` (main.go:269). -/
  flagResult : Except String String
  /-- `time.Now().Format(...)` (main.go:237). -/
  timestamp : String

/-- Outcome classification, main.go:254-284: the code after `proxy.run()`. -/
def classifyRun (env : Env) (task : String) : List Event × Except String Unit :=
  match env.runResult with
  | .success => ([.write "Command finished normally\n"], .ok ())
  | .otherErr msg =>
      ([], .error ("failed to start command: " ++ msg ++ ", stderr: " ++ env.stderrBuf))
  | .exitErr _ sig =>
      if sig = sigInterrupt then ([], .error "got EOF before command exit")
      else
        let wEv := Event.write ("Command failed: " ++ env.processStateStr ++ "\nTrying to fetch flag...\n")
        match env.writeResult with
        | .error e => ([wEv], .error ("failed to write to the connection: " ++ e))
        | .ok _ =>
            match env.flagResult with
            | .error _ =>
                ([wEv, .fetchFlagCall task], .error "failed to fetch flag, try again a few minutes later")
            | .ok fl => ([wEv, .fetchFlagCall task, .write (fl ++ "\n")], .ok ())

/-- main.go:224-284: everything after the `"Enter task name: "` prompt. -/
def afterPrompt (env : Env) (binDir subDir : String) : List Event × Except String Unit :=
  match slowReadFirstLine ((env.connInput.take MAX_INPUT_SIZE).take MAX_FIRST_LINE_SIZE) with
  | .error e => ([], .error ("failed to read first line: " ++ e))
  | .ok task0 =>
      let task := replaceChar '_' '-' task0
      let executablePath := goPathJoin binDir ("ctf_" ++ replaceChar '-' '_' task)
      if env.taskIsFile then
        let inputPath := goPathJoin subDir (task ++ "_" ++ env.timestamp)
        match env.createResult with
        | .error e => ([.statFile executablePath], .error ("failed to create input file: " ++ e))
        | .ok _ =>
            match env.proxyResult with
            | .error e =>
                ([.statFile executablePath, .createFile inputPath],
                 .error ("failed to prepare command: " ++ e))
            | .ok _ =>
                let k := classifyRun env task
                ([.statFile executablePath, .createFile inputPath,
                  .write ("Running task " ++ task ++ "\n"), .runProcess executablePath] ++ k.1,
                 k.2)
      else
        ([.statFile executablePath],
         .error ("unknown task " ++ task ++ " (@ " ++ executablePath ++ ")"))

/-- main.go:223 onwards: the prompt write followed by `afterPrompt`. -/
def afterAdmission (env : Env) (binDir subDir : String) : List Event × Except String Unit :=
  let k := afterPrompt env binDir subDir
  (Event.write "Enter task name: " :: k.1, k.2)

/-- `doHandleConnection` (main.go:210-285).  The deferred
`sema.Release(1)` (main.go:221) is the final event on every path that was
admitted; a failed admission returns before the `defer` is installed. -/
def doHandleConnection (env : Env) (binDir subDir : String) : List Event × Except String Unit :=
  if env.tryAcquireOk then
    let k := afterAdmission env binDir subDir
    (Event.tryAcquire true :: (k.1 ++ [Event.release]), k.2)
  else
    match env.acquireResult with
    | .error e =>
        ([.tryAcquire false, .write "Waiting for an available runner...\n", .blockAcquire false],
         .error ("failed to acquire semaphore: " ++ e))
    | .ok _ =>
        let k := afterAdmission env binDir subDir
        ([Event.tryAcquire false, Event.write "Waiting for an available runner...\n",
          Event.blockAcquire true] ++ (k.1 ++ [Event.release]), k.2)

/-! ### The process proxy (main.go:287-372)

`handleStdin` is a straight-line goroutine: copy the connection bytes
into the child's stdin until EOF, close the child's stdout and stderr
pipes, send `os.Interrupt` to the child, and log.  Its actions are
recorded as a trace; the signal call's error is supplied by the caller
and is never propagated (the function returns nothing). -/

inductive PEvent where
  | copyStdin
  | closeStdoutPipe
  | closeStderrPipe
  | signalProc
  | logSentSigint
  | logDoneStdin
  | copyStdout
  | copyStderr
deriving DecidableEq, Repr

/-- `commandProxy.handleStdin` (main.go:341-357).  `sigErr = none` means
`cmd.Process.Signal(os.Interrupt)` returned nil; a `some` value is the
error of signalling an already-exited process.  Only the nil case logs
"Sent SIGINT"; either way the goroutine just finishes. -/
def handleStdin (sigErr : Option String) : List PEvent :=
  [.copyStdin, .closeStdoutPipe, .closeStderrPipe, .signalProc]
    ++ (match sigErr with | none => [.logSentSigint] | some _ => [])
    ++ [.logDoneStdin]

/-- `commandProxy.run` (main.go:326-339): on a `cmd.Start()` failure the
wrapped error is returned and no goroutine runs; otherwise the three I/O
goroutines run, `cmd.Wait()`'s result is returned after the output copies
are joined, and the stdin goroutine's signal error does not enter the
result.  The trace lists the stdin goroutine's actions followed by the
two output-copy completions (their real interleaving does not matter to
any claim below). -/
def commandProxyRun (startErr : Option String) (wait : RunResult) (sigErr : Option String) :
    List PEvent × RunResult :=
  match startErr with
  | some e => ([], .otherErr ("failed to start command: " ++ e))
  | none => (handleStdin sigErr ++ [.copyStdout, .copyStderr], wait)

/-! ### The accept loop (main.go:122-140)

One iteration of `main`'s `for` loop: `listener.Accept()`, the error
budget bookkeeping, and the unconditional `go checker.handleConnection`
dispatch.  On a failed accept Go's `Accept` returns a nil connection. -/

/-- `acceptErrorsBudget` (main.go:122). -/
def acceptErrorsBudget : Nat := 10

structure AcceptIter where
  /-- `panic(err)` fired, terminating the process. -/
  fatalPanic : Bool
  newBudget : Nat
  /-- a `go checker.handleConnection ...` statement ran this iteration. -/
  handlerStarted : Bool
  /-- the connection handed to that handler is nil. -/
  handlerConnIsNil : Bool
deriving DecidableEq, Repr

/-- One iteration of the accept loop with current budget `cur`. -/
def acceptIteration (cur : Nat) (acceptOk : Bool) : AcceptIter :=
  if acceptOk then
    { fatalPanic := false
      newBudget := if cur < acceptErrorsBudget then cur + 1 else cur
      handlerStarted := true
      handlerConnIsNil := false }
  else if cur = 0 then
    { fatalPanic := true, newBudget := cur, handlerStarted := false, handlerConnIsNil := false }
  else
    { fatalPanic := false, newBudget := cur - 1, handlerStarted := true, handlerConnIsNil := true }

/-! ### The flag client (main.go:51-102)

`doFetchFlag` performs one HTTP round trip; each failure mode yields the
error that the Go code returns.  `fetchFlag` wraps it in
`backoff.Retry` with `backoff.NewExponentialBackOff()` whose
`MaxElapsedTime` is 15 seconds: a nil result stops with success, a
non-nil result retries after the next backoff interval unless the
elapsed-time budget is exhausted, in which case that last error is
returned.  Wall-clock elapsed time before each retry decision is an
oracle `elapsedMs`; the recursion carries fuel because the Go loop can
retry unboundedly while the clock stands still. -/

/-- The observable outcome of one `doFetchFlag` HTTP attempt. -/
inductive Attempt where
  | transportErr (msg : String)
  | readBodyErr (msg : String)
  | parseErr (msg : String)
  | response (ok : Bool) (flagStr : String) (errMsg : String)
deriving DecidableEq, Repr

/-- `flagFetcher.doFetchFlag` (main.go:56-87). -/
def doFetchFlag : Attempt → Except String String
  | .transportErr m => .error m
  | .readBodyErr m => .error m
  | .parseErr m => .error m
  | .response ok f e => if ok then .ok f else .error ("server error: " ++ e)

/-- `backoffPolicy.MaxElapsedTime = time.Second * 15` (main.go:93), in ms. -/
def maxElapsedTimeMs : Nat := 15000

/-- `ExponentialBackOff.NextBackOff` returns `Stop` once the elapsed time
exceeds `MaxElapsedTime`. -/
def nextBackOffStops (elapsedMs : Nat) : Bool := decide (maxElapsedTimeMs < elapsedMs)

/-- `backoff.Retry` (main.go:94-99): attempt `i`, stop on success, stop
with the last error when the budget is exhausted, otherwise retry. -/
def backoffRetry (op : Nat → Except String String) (elapsedMs : Nat → Nat) :
    Nat → Nat → Option (Except String String)
  | _, 0 => none
  | i, fuel + 1 =>
    match op i with
    | .ok v => some (.ok v)
    | .error e =>
        if nextBackOffStops (elapsedMs i) then some (.error e)
        else backoffRetry op elapsedMs (i + 1) fuel

/-- `flagFetcher.fetchFlag` (main.go:89-102). -/
def fetchFlag (attempts : Nat → Attempt) (elapsedMs : Nat → Nat) (fuel : Nat) :
    Option (Except String String) :=
  backoffRetry (fun i => doFetchFlag (attempts i)) elapsedMs 0 fuel

/-! ### Trace observations used by the theorems -/

/-- A successful semaphore acquisition (`TryAcquire` returning true, or a
blocking `Acquire` returning nil). -/
def isAcquireSuccess : Event → Bool
  | .tryAcquire true => true
  | .blockAcquire true => true
  | _ => false

def isReleaseEv : Event → Bool
  | .release => true
  | _ => false

def isSemEvent (e : Event) : Bool := isAcquireSuccess e || isReleaseEv e

def acquireCount : List Event → Nat
  | [] => 0
  | e :: t => (if isAcquireSuccess e then 1 else 0) + acquireCount t

def releaseCount : List Event → Nat
  | [] => 0
  | e :: t => (if isReleaseEv e then 1 else 0) + releaseCount t

/-- Checks, along a trace starting with `h` held slots, that a slot is
acquired only when none is held (so one handler never holds two), that
`Release` only happens with a slot held (no release without a matching
acquire), and that no slot remains held at the end of the trace. -/
def slotDiscipline : Nat → List Event → Bool
  | h, [] => decide (h = 0)
  | h, e :: rest =>
    if isAcquireSuccess e then decide (h = 0) && slotDiscipline (h + 1) rest
    else if isReleaseEv e then decide (h = 1) && slotDiscipline (h - 1) rest
    else slotDiscipline h rest

/-- The admission phase ended with a slot held. -/
def admitted (env : Env) : Bool :=
  env.tryAcquireOk || (match env.acquireResult with | .ok _ => true | .error _ => false)

/-- The kinds of event the admission phase (main.go:214-221) can emit. -/
def isAdmissionPhaseEvent : Event → Bool
  | .tryAcquire _ => true
  | .blockAcquire _ => true
  | .write s => s = "Waiting for an available runner...\n"
  | _ => false

def isPromptWrite : Event → Bool
  | .write s => s = "Enter task name: "
  | _ => false

/-! ### Concrete environments used to instantiate the theorems -/

/-- A free slot, task `aes`, child killed by the handler's own SIGINT
(signal 2) after input EOF. -/
def envEofInterrupt : Env :=
  { tryAcquireOk := true
    acquireResult := .ok ()
    connInput := "aes\n".data
    taskIsFile := true
    createResult := .ok ()
    proxyResult := .ok ()
    runResult := .exitErr (-1) 2
    stderrBuf := ""
    processStateStr := "signal: interrupt"
    writeResult := .ok ()
    flagResult := .ok "flag{x}"
    timestamp := "2021-01-01T00:00:00.000" }

/-- The input-EOF race lost by the interrupt: the client closed its send
side, `handleStdin` closed the output pipes, but the child exited with
code 1 on its own before the SIGINT landed, so its wait status records
exit code 1 and no termination signal (`Signal()` = -1). -/
def envEofRaceCrash : Env :=
  { tryAcquireOk := true
    acquireResult := .ok ()
    connInput := "aes\n".data
    taskIsFile := true
    createResult := .ok ()
    proxyResult := .ok ()
    runResult := .exitErr 1 (-1)
    stderrBuf := ""
    processStateStr := "exit status 1"
    writeResult := .ok ()
    flagResult := .ok "flag{x}"
    timestamp := "2021-01-01T00:00:00.000" }

/-- A genuine crash (SIGSEGV = signal 11) whose flag fetch fails with a
server-reported error. -/
def envCrashFlagFail : Env :=
  { envEofInterrupt with
    runResult := .exitErr (-1) 11
    processStateStr := "signal: segmentation fault"
    flagResult := .error "server error: boom" }

/-- All slots busy at first, blocking acquire succeeds, child exits 0. -/
def envContended : Env :=
  { envEofInterrupt with tryAcquireOk := false, runResult := .success }

/-- A path-traversal task identifier; the child exits 0. -/
def envTraversal : Env :=
  { envEofInterrupt with connInput := "x/../../etc/passwd\n".data, runResult := .success }

/-- A 100-byte task line with no newline. -/
def envTooLongLine : Env :=
  { envEofInterrupt with connInput := List.replicate 100 'a' }

end Crashme

/-! ## The scoring module (`internal/scorer/scorer.go`)

Instants are modelled as exact rational seconds: `time.Before`/`After`
are the strict orders, `Sub(..).Seconds()` is rational subtraction, and
Go's `int(float64(..) * mult)` conversion truncates toward zero.  All
concrete inputs used below are dyadic, where float64 arithmetic is exact
and agrees with ℚ.  `models.Pipeline` keeps only the fields the scorer
reads (`Task`, `Status`, `CreatedAt`); a Go `*models.Pipeline` pointer is
an `Option Pipeline`, with `none` for nil, and dereferencing nil is the
`Except` error carrying Go's runtime panic message. -/

namespace Scorer

structure Pipeline where
  task : String
  status : String
  createdAt : ℚ
deriving DecidableEq, Repr

/-- `models.PipelineStatusSuccess`.  Modelled from the spec: the raw
status value a successful CI pipeline records (the `models` package is
not under src/). -/
def pipelineStatusSuccess : String := "success"

/-- `week = time.Hour * 24 * 7` (scorer.go:98), in seconds. -/
def weekSeconds : ℚ := 604800

/-- Go's `int(x)` conversion of a float value: truncation toward zero. -/
def ratTrunc (q : ℚ) : Int := if q < 0 then -(Int.floor (-q)) else Int.floor q

/-- `Scorer.scorePipeline` (scorer.go:103-122); `taskScore` is
`task.Score`, `deadline` is `group.Deadline.Time`.  Go's `/` on int
truncates toward zero (`Int.tdiv`). -/
def scorePipeline (taskScore : Int) (deadline : ℚ) (p : Pipeline) : Int :=
  if p.status ≠ pipelineStatusSuccess then 0
  else if p.createdAt < deadline then taskScore
  else
    let weekAfter := deadline + weekSeconds
    if weekAfter < p.createdAt then Int.tdiv taskScore 2
    else ratTrunc ((taskScore : ℚ) *
      (1/2 + 1/2 * (p.createdAt - deadline) / (weekAfter - deadline)))

/-- `classifyPipelineStatus`.  Modelled from the spec: maps a pipeline's
raw status to its classified task-status rank, higher ranks being better
(the defining file is not under src/; only the ordering matters here). -/
def classifyPipelineStatus (st : String) : Nat :=
  if st = pipelineStatusSuccess then 2 else if st = "failed" then 1 else 0

/-- Go's nil-dereference panic message. -/
def nilDeref : String := "invalid memory address or nil pointer dereference"

/-- `pipelineLess` (scorer.go:22-28) on `*models.Pipeline` arguments;
reading `.Status`/`.CreatedAt` through a nil pointer panics. -/
def pipelineLess (l r : Option Pipeline) : Except String Bool :=
  match l, r with
  | some l, some r =>
      if classifyPipelineStatus l.status = classifyPipelineStatus r.status then
        .ok (decide (l.createdAt < r.createdAt))
      else
        .ok (decide (classifyPipelineStatus r.status < classifyPipelineStatus l.status))
  | _, _ => .error nilDeref

/-- The `minPipeline` fold of CalcScores (scorer.go:74-79): start from
`pipelines[0]` and scan the whole slice. -/
def selectMinGo : List (Option Pipeline) → Option Pipeline → Except String (Option Pipeline)
  | [], m => .ok m
  | p :: t, m =>
    match pipelineLess p m with
    | .error e => .error e
    | .ok b => selectMinGo t (if b then p else m)

def selectMinPipeline : List (Option Pipeline) → Except String (Option Pipeline)
  | [] => .error "index out of range"
  | first :: rest => selectMinGo (first :: rest) first

/-- The `pipelinesMap` of CalcScores: Go map iteration order never
matters below, so an insertion-ordered association list suffices. -/
abbrev PipelinesMap := List (String × List (Option Pipeline))

def mapLookup (m : PipelinesMap) (k : String) : Option (List (Option Pipeline)) :=
  (m.find? fun kv => kv.1 = k).map (·.2)

def mapInsert (m : PipelinesMap) (k : String) (v : List (Option Pipeline)) : PipelinesMap :=
  m ++ [(k, v)]

/-- One iteration of the map-building loop (scorer.go:42-49).  When the
key is new, `make([]*models.Pipeline, 1)` (a slice holding one nil
pointer) is stored; in both branches `prev = append(prev, &pipeline)`
reallocates (the slice is at capacity) and rebinds only the local
variable, so the stored slice is never extended. -/
def buildPipelinesMapStep (m : PipelinesMap) (p : Pipeline) : PipelinesMap :=
  match mapLookup m p.task with
  | some prev =>
      let _ := prev ++ [some p]
      m
  | none =>
      let prev : List (Option Pipeline) := [none]
      let m' := mapInsert m p.task prev
      let _ := prev ++ [some p]
      m'

def buildPipelinesMap (ps : List Pipeline) : PipelinesMap :=
  ps.foldl buildPipelinesMapStep []

/-- The per-task body of CalcScores (scorer.go:69-83) for one deadline
task: `none` means the `continue` was taken (no pipelines recorded, task
left `Assigned` with score 0); otherwise the computed
`(classified status, score)` pair, or the runtime panic it raises. -/
def taskStatusScore (m : PipelinesMap) (taskName : String) (taskScore : Int) (deadline : ℚ) :
    Option (Except String (Nat × Int)) :=
  match mapLookup m taskName with
  | none => none
  | some ps =>
    if ps.length = 0 then none
    else some (
      match selectMinPipeline ps with
      | .error e => .error e
      | .ok mp =>
        match mp with
        | none => .error nilDeref
        | some p => .ok (classifyPipelineStatus p.status, scorePipeline taskScore deadline p))

end Scorer

/-! ## Helper lemmas about the session-handler trace -/

namespace Crashme

lemma classifyRun_nosem_all (env : Env) (task : String) :
    ((classifyRun env task).1.all fun e => !isSemEvent e) = true := by
  unfold classifyRun
  rcases env.runResult with _ | ⟨c, sig⟩ | m
  · rfl
  · dsimp only
    by_cases hsig : sig = sigInterrupt
    · rw [if_pos hsig]
      rfl
    · rw [if_neg hsig]
      rcases env.writeResult with e | u
      · rfl
      · rcases env.flagResult with e | fl <;> rfl
  · rfl

lemma afterPrompt_nosem_all (env : Env) (b s : String) :
    ((afterPrompt env b s).1.all fun e => !isSemEvent e) = true := by
  unfold afterPrompt
  rcases slowReadFirstLine ((env.connInput.take MAX_INPUT_SIZE).take MAX_FIRST_LINE_SIZE)
    with msg | task0
  · rfl
  · dsimp only
    by_cases ht : env.taskIsFile
    · rw [if_pos ht]
      rcases env.createResult with e | u
      · rfl
      · rcases env.proxyResult with e | u
        · rfl
        · simp only [List.all_append, classifyRun_nosem_all, Bool.and_true]
          rfl
    · rw [if_neg ht]
      rfl

lemma afterPrompt_no_sem (env : Env) (b s : String) :
    ∀ e ∈ (afterPrompt env b s).1, isSemEvent e = false := by
  intro e he
  have := List.all_eq_true.mp (afterPrompt_nosem_all env b s) e he
  simpa using this

lemma slotDiscipline_cons_nosem (e : Event) (heA : isAcquireSuccess e = false)
    (heR : isReleaseEv e = false) (h : Nat) (t : List Event) :
    slotDiscipline h (e :: t) = slotDiscipline h t := by
  simp only [slotDiscipline, heA, heR]
  simp

lemma slotDiscipline_append_nosem (m r : List Event) (h : Nat)
    (hm : ∀ e ∈ m, isSemEvent e = false) :
    slotDiscipline h (m ++ r) = slotDiscipline h r := by
  induction m with
  | nil => rfl
  | cons e t ih =>
    have he := hm e (by simp)
    unfold isSemEvent at he
    obtain ⟨h1, h2⟩ := Bool.or_eq_false_iff.mp he
    rw [List.cons_append, slotDiscipline_cons_nosem e h1 h2]
    exact ih fun e' he' => hm e' (by simp [he'])

lemma acquireCount_append (m r : List Event) :
    acquireCount (m ++ r) = acquireCount m + acquireCount r := by
  induction m with
  | nil => simp [acquireCount]
  | cons e t ih => simp [acquireCount, ih, Nat.add_assoc]

lemma releaseCount_append (m r : List Event) :
    releaseCount (m ++ r) = releaseCount m + releaseCount r := by
  induction m with
  | nil => simp [releaseCount]
  | cons e t ih => simp [releaseCount, ih, Nat.add_assoc]

lemma acquireCount_zero_of_nosem (m : List Event) (hm : ∀ e ∈ m, isSemEvent e = false) :
    acquireCount m = 0 := by
  induction m with
  | nil => rfl
  | cons e t ih =>
    have he := hm e (by simp)
    unfold isSemEvent at he
    obtain ⟨h1, _⟩ := Bool.or_eq_false_iff.mp he
    simp only [acquireCount, h1]
    simpa using ih fun e' he' => hm e' (by simp [he'])

lemma releaseCount_zero_of_nosem (m : List Event) (hm : ∀ e ∈ m, isSemEvent e = false) :
    releaseCount m = 0 := by
  induction m with
  | nil => rfl
  | cons e t ih =>
    have he := hm e (by simp)
    unfold isSemEvent at he
    obtain ⟨_, h2⟩ := Bool.or_eq_false_iff.mp he
    simp only [releaseCount, h2]
    simpa using ih fun e' he' => hm e' (by simp [he'])

lemma doHandleConnection_trace_tryAcquireOk (env : Env) (b s : String)
    (hta : env.tryAcquireOk = true) :
    (doHandleConnection env b s).1 = Event.tryAcquire true ::
      (Event.write "Enter task name: " :: ((afterPrompt env b s).1 ++ [Event.release])) := by
  unfold doHandleConnection afterAdmission
  rw [if_pos hta]
  rfl

lemma doHandleConnection_trace_blockOk (env : Env) (b s : String)
    (hta : ¬env.tryAcquireOk = true) (ha : env.acquireResult = .ok ()) :
    (doHandleConnection env b s).1 = Event.tryAcquire false ::
      (Event.write "Waiting for an available runner...\n" :: (Event.blockAcquire true ::
        (Event.write "Enter task name: " :: ((afterPrompt env b s).1 ++ [Event.release])))) := by
  unfold doHandleConnection afterAdmission
  rw [if_neg hta, ha]
  rfl

lemma doHandleConnection_trace_blockFail (env : Env) (b s : String)
    (hta : ¬env.tryAcquireOk = true) (msg : String) (ha : env.acquireResult = .error msg) :
    (doHandleConnection env b s).1 = [Event.tryAcquire false,
      Event.write "Waiting for an available runner...\n", Event.blockAcquire false] := by
  unfold doHandleConnection
  rw [if_neg hta, ha]

/-- C2: on every exit path of `doHandleConnection` the semaphore slot is
released exactly once iff the acquisition succeeded: the trace satisfies
the slot discipline (a slot is acquired only when none is held, `Release`
happens only with a slot held, and no slot is held when the handler
ends, so the available count returns to its pre-request value and the
handler never holds more than its one slot), the number of successful
acquisitions is one iff the handler was admitted, and releases equal
acquisitions on every path; in particular no slot is held after a failed
(timed-out or cancelled) blocking acquire. -/
theorem doHandleConnection_releases_slot_exactly_when_acquired
    (env : Env) (b s : String) :
    slotDiscipline 0 (doHandleConnection env b s).1 = true
    ∧ acquireCount (doHandleConnection env b s).1 = (if admitted env then 1 else 0)
    ∧ releaseCount (doHandleConnection env b s).1
        = acquireCount (doHandleConnection env b s).1 := by
  have hns := afterPrompt_no_sem env b s
  have hca := acquireCount_zero_of_nosem _ hns
  have hcr := releaseCount_zero_of_nosem _ hns
  by_cases hta : env.tryAcquireOk
  · rw [doHandleConnection_trace_tryAcquireOk env b s hta]
    have hadm : admitted env = true := by
      unfold admitted
      rw [hta]
      rfl
    rw [hadm]
    refine ⟨?_, ?_, ?_⟩
    · show slotDiscipline 1 ((afterPrompt env b s).1 ++ [Event.release]) = true
      rw [slotDiscipline_append_nosem _ _ _ hns]
      rfl
    · simp [acquireCount, acquireCount_append, hca, isAcquireSuccess]
    · simp [acquireCount, acquireCount_append, hca, releaseCount, releaseCount_append, hcr,
        isAcquireSuccess, isReleaseEv]
  · have hta' : env.tryAcquireOk = false := by simpa using hta
    rcases ha : env.acquireResult with msg | ⟨⟩
    · rw [doHandleConnection_trace_blockFail env b s hta msg ha]
      have hadm : admitted env = false := by
        unfold admitted
        rw [ha, hta']
        rfl
      rw [hadm]
      refine ⟨rfl, rfl, rfl⟩
    · rw [doHandleConnection_trace_blockOk env b s hta ha]
      have hadm : admitted env = true := by
        unfold admitted
        rw [ha, hta']
        rfl
      rw [hadm]
      refine ⟨?_, ?_, ?_⟩
      · show slotDiscipline 1 ((afterPrompt env b s).1 ++ [Event.release]) = true
        rw [slotDiscipline_append_nosem _ _ _ hns]
        rfl
      · simp [acquireCount, acquireCount_append, hca, isAcquireSuccess]
      · simp [acquireCount, acquireCount_append, hca, releaseCount, releaseCount_append, hcr,
          isAcquireSuccess, isReleaseEv]

end Crashme

/-! ## Membership and result lemmas for outcome classification -/

namespace Crashme

lemma doHandleConnection_result_tryAcquireOk (env : Env) (b s : String)
    (hta : env.tryAcquireOk = true) :
    (doHandleConnection env b s).2 = (afterPrompt env b s).2 := by
  unfold doHandleConnection afterAdmission
  rw [if_pos hta]

lemma doHandleConnection_result_blockOk (env : Env) (b s : String)
    (hta : ¬env.tryAcquireOk = true) (ha : env.acquireResult = .ok ()) :
    (doHandleConnection env b s).2 = (afterPrompt env b s).2 := by
  unfold doHandleConnection afterAdmission
  rw [if_neg hta, ha]

lemma fetch_mem_classifyRun (env : Env) (task t : String)
    (hm : Event.fetchFlagCall t ∈ (classifyRun env task).1) :
    ∃ c sig, env.runResult = RunResult.exitErr c sig ∧ ¬sig = sigInterrupt := by
  unfold classifyRun at hm
  rcases hrr : env.runResult with _ | ⟨c, sig⟩ | m <;> rw [hrr] at hm <;> dsimp only at hm
  · simp at hm
  · by_cases hsig : sig = sigInterrupt
    · rw [if_pos hsig] at hm
      simp at hm
    · exact ⟨c, sig, rfl, hsig⟩
  · simp at hm

lemma fetch_mem_afterPrompt (env : Env) (b s t : String)
    (hm : Event.fetchFlagCall t ∈ (afterPrompt env b s).1) :
    ∃ c sig, env.runResult = RunResult.exitErr c sig ∧ ¬sig = sigInterrupt := by
  unfold afterPrompt at hm
  rcases hsr : slowReadFirstLine ((env.connInput.take MAX_INPUT_SIZE).take MAX_FIRST_LINE_SIZE)
    with msg | task0 <;> rw [hsr] at hm <;> dsimp only at hm
  · simp at hm
  · by_cases ht : env.taskIsFile
    · rw [if_pos ht] at hm
      rcases hc : env.createResult with e | ⟨⟩ <;> rw [hc] at hm <;> dsimp only at hm
      · simp at hm
      · rcases hp : env.proxyResult with e | ⟨⟩ <;> rw [hp] at hm <;> dsimp only at hm
        · simp at hm
        · rcases List.mem_append.mp hm with h | h
          · simp at h
          · exact fetch_mem_classifyRun env _ t h
    · rw [if_neg ht] at hm
      simp at hm

lemma classifyRun_result_interrupted (env : Env) (task : String) (c : Int)
    (hr : env.runResult = RunResult.exitErr c sigInterrupt) :
    (classifyRun env task).2 = .error "got EOF before command exit" := by
  unfold classifyRun
  rw [hr]
  dsimp only
  rw [if_pos rfl]

lemma classifyRun_result_flag_error (env : Env) (task msg t : String)
    (hf : env.flagResult = .error msg)
    (hm : Event.fetchFlagCall t ∈ (classifyRun env task).1) :
    (classifyRun env task).2 = .error "failed to fetch flag, try again a few minutes later" := by
  unfold classifyRun at hm ⊢
  split at hm
  · simp at hm
  · simp at hm
  · rename_i c sig hrr
    split at hm
    · simp at hm
    · rename_i hsig
      dsimp only at hm
      split at hm
      · simp at hm
      · rename_i u hw
        simp [hsig, hw, hf]

lemma afterPrompt_result_eq_classifyRun (env : Env) (b s task0 : String) (u v : Unit)
    (hsr : slowReadFirstLine ((env.connInput.take MAX_INPUT_SIZE).take MAX_FIRST_LINE_SIZE)
      = .ok task0)
    (ht : env.taskIsFile = true) (hc : env.createResult = .ok u)
    (hp : env.proxyResult = .ok v) :
    (afterPrompt env b s).2 = (classifyRun env (replaceChar '_' '-' task0)).2 := by
  unfold afterPrompt
  rw [hsr]
  dsimp only
  rw [if_pos ht, hc]
  dsimp only
  rw [hp]

lemma runProcess_conditions (env : Env) (b s p : String)
    (hm : Event.runProcess p ∈ (afterPrompt env b s).1) :
    ∃ task0 u v,
      slowReadFirstLine ((env.connInput.take MAX_INPUT_SIZE).take MAX_FIRST_LINE_SIZE)
        = .ok task0
      ∧ env.taskIsFile = true ∧ env.createResult = .ok u ∧ env.proxyResult = .ok v := by
  unfold afterPrompt at hm
  split at hm
  · simp at hm
  · rename_i task0 hsr
    dsimp only at hm
    split at hm
    · rename_i ht
      split at hm
      · simp at hm
      · rename_i u hc
        split at hm
        · simp at hm
        · rename_i v hp
          exact ⟨task0, u, v, hsr, ht, hc, hp⟩
    · simp at hm

lemma fetch_conditions (env : Env) (b s t : String)
    (hm : Event.fetchFlagCall t ∈ (afterPrompt env b s).1) :
    ∃ task0 u v,
      slowReadFirstLine ((env.connInput.take MAX_INPUT_SIZE).take MAX_FIRST_LINE_SIZE)
        = .ok task0
      ∧ env.taskIsFile = true ∧ env.createResult = .ok u ∧ env.proxyResult = .ok v
      ∧ Event.fetchFlagCall t ∈ (classifyRun env (replaceChar '_' '-' task0)).1 := by
  unfold afterPrompt at hm
  split at hm
  · simp at hm
  · rename_i task0 hsr
    dsimp only at hm
    split at hm
    · rename_i ht
      split at hm
      · simp at hm
      · rename_i u hc
        split at hm
        · simp at hm
        · rename_i v hp
          rcases List.mem_append.mp hm with h | h
          · simp at h
          · exact ⟨task0, u, v, hsr, ht, hc, hp, h⟩
    · simp at hm

lemma afterPrompt_result_interrupted (env : Env) (b s : String) (c : Int)
    (hr : env.runResult = RunResult.exitErr c sigInterrupt) (p : String)
    (hm : Event.runProcess p ∈ (afterPrompt env b s).1) :
    (afterPrompt env b s).2 = .error "got EOF before command exit" := by
  obtain ⟨task0, u, v, hsr, ht, hc, hp⟩ := runProcess_conditions env b s p hm
  rw [afterPrompt_result_eq_classifyRun env b s task0 u v hsr ht hc hp]
  exact classifyRun_result_interrupted env _ c hr

lemma afterPrompt_result_flag_error (env : Env) (b s : String) (msg t : String)
    (hf : env.flagResult = .error msg)
    (hm : Event.fetchFlagCall t ∈ (afterPrompt env b s).1) :
    (afterPrompt env b s).2 = .error "failed to fetch flag, try again a few minutes later" := by
  obtain ⟨task0, u, v, hsr, ht, hc, hp, hcm⟩ := fetch_conditions env b s t hm
  rw [afterPrompt_result_eq_classifyRun env b s task0 u v hsr ht hc hp]
  exact classifyRun_result_flag_error env _ msg t hf hcm

lemma fetch_mem_trace (env : Env) (b s t : String)
    (hm : Event.fetchFlagCall t ∈ (doHandleConnection env b s).1) :
    Event.fetchFlagCall t ∈ (afterPrompt env b s).1
    ∧ (doHandleConnection env b s).2 = (afterPrompt env b s).2 := by
  by_cases hta : env.tryAcquireOk
  · rw [doHandleConnection_trace_tryAcquireOk env b s hta] at hm
    simp at hm
    exact ⟨hm, doHandleConnection_result_tryAcquireOk env b s hta⟩
  · rcases ha : env.acquireResult with msg | ⟨⟩
    · rw [doHandleConnection_trace_blockFail env b s hta msg ha] at hm
      simp at hm
    · rw [doHandleConnection_trace_blockOk env b s hta ha] at hm
      simp at hm
      exact ⟨hm, doHandleConnection_result_blockOk env b s hta ha⟩

lemma runProcess_mem_trace (env : Env) (b s p : String)
    (hm : Event.runProcess p ∈ (doHandleConnection env b s).1) :
    Event.runProcess p ∈ (afterPrompt env b s).1
    ∧ (doHandleConnection env b s).2 = (afterPrompt env b s).2 := by
  by_cases hta : env.tryAcquireOk
  · rw [doHandleConnection_trace_tryAcquireOk env b s hta] at hm
    simp at hm
    exact ⟨hm, doHandleConnection_result_tryAcquireOk env b s hta⟩
  · rcases ha : env.acquireResult with msg | ⟨⟩
    · rw [doHandleConnection_trace_blockFail env b s hta msg ha] at hm
      simp at hm
    · rw [doHandleConnection_trace_blockOk env b s hta ha] at hm
      simp at hm
      exact ⟨hm, doHandleConnection_result_blockOk env b s hta ha⟩

/-- C1 (amended): after the client closes its send side the handler
sends the child an interrupt, and the outcome is classified Interrupted
exactly when the child's wait status records that interrupt signal: then
the request fails with "got EOF before command exit" and the flag client
is never invoked, and conversely a flag fetch happens only when the
structured exit error carries a termination signal different from the
interrupt signal.  The classification reads nothing but the wait status,
so which side of that equivalence a disconnected connection lands on is
decided by the race between the child's own exit and the SIGINT
delivery (see the counterexample below), not by the disconnect itself. -/
theorem interrupted_never_fetches_flag (env : Env) (b s : String) :
    (∀ c : Int, env.runResult = RunResult.exitErr c sigInterrupt →
      (∀ t, Event.fetchFlagCall t ∉ (doHandleConnection env b s).1)
      ∧ (∀ p, Event.runProcess p ∈ (doHandleConnection env b s).1 →
          (doHandleConnection env b s).2 = .error "got EOF before command exit"))
    ∧ (∀ t, Event.fetchFlagCall t ∈ (doHandleConnection env b s).1 →
        ∃ c sig, env.runResult = RunResult.exitErr c sig ∧ ¬sig = sigInterrupt) := by
  constructor
  · intro c hr
    constructor
    · intro t hm
      obtain ⟨hap, _⟩ := fetch_mem_trace env b s t hm
      obtain ⟨c', sig, hrr, hsig⟩ := fetch_mem_afterPrompt env b s t hap
      rw [hr] at hrr
      injection hrr with h1 h2
      exact hsig h2.symm
    · intro p hm
      obtain ⟨hap, hres⟩ := runProcess_mem_trace env b s p hm
      rw [hres]
      exact afterPrompt_result_interrupted env b s c hr p hap
  · intro t hm
    obtain ⟨hap, _⟩ := fetch_mem_trace env b s t hm
    exact fetch_mem_afterPrompt env b s t hap

/-- Witness for C1 at a concrete interrupted run: the handler's result is
the Interrupted report. -/
theorem interrupted_never_fetches_flag_witness :
    (doHandleConnection envEofInterrupt "/binaries" "/submits").2
      = .error "got EOF before command exit" :=
  ((interrupted_never_fetches_flag envEofInterrupt "/binaries" "/submits").1 (-1) rfl).2
    "/binaries/ctf_aes" (by decide)

/-- C1 (counterexample): the original claim says a connection whose
client closed its send side before the child exited is always classified
Interrupted, never CrashExit, with no flag fetch, "regardless of the
child's actual exit code race".  In the code the race decides: at
`envEofRaceCrash` the client's input ended (the stdin task closed the
output pipes and attempted the interrupt, which failed only because the
child had already exited -- the tolerated `Signal` error of
main.go:351-354, which `run` ignores), so the wait status carries exit
code 1 and no signal; `doHandleConnection` (main.go:254-269) then takes
the CrashExit path: it writes the "Command failed" notice, invokes the
flag client and returns the flag instead of failing with
"got EOF before command exit".  The final conjunct shows the identical
connection whose status does record the SIGINT is classified
Interrupted, so the classification follows the racy wait status, not the
claimed scenario. -/
theorem client_eof_race_can_yield_crash_exit :
    (commandProxyRun none (RunResult.exitErr 1 (-1))
        (some "os: process already finished")).2 = RunResult.exitErr 1 (-1)
    ∧ envEofRaceCrash.runResult = RunResult.exitErr 1 (-1)
    ∧ Event.fetchFlagCall "aes" ∈ (doHandleConnection envEofRaceCrash "/binaries" "/submits").1
    ∧ Event.write "Command failed: exit status 1\nTrying to fetch flag...\n"
        ∈ (doHandleConnection envEofRaceCrash "/binaries" "/submits").1
    ∧ (doHandleConnection envEofRaceCrash "/binaries" "/submits").2 = .ok ()
    ∧ ¬(doHandleConnection envEofRaceCrash "/binaries" "/submits").2
        = .error "got EOF before command exit"
    ∧ (doHandleConnection { envEofRaceCrash with runResult := RunResult.exitErr 1 sigInterrupt }
        "/binaries" "/submits").2 = .error "got EOF before command exit" := by
  decide

end Crashme

/-! ## Process-proxy shutdown ordering, acceptor loop, flag client -/

namespace Crashme

/-- C4: `handleStdin` closes the child's stdout pipe and stderr pipe, in
that order, and only after both closes sends the interrupt signal (the
first four actions of the stdin task are fixed, and each of the two
closes and the signal occurs exactly once); moreover a failed interrupt
(`sigErr = some _`, the process already exited) never changes the result
of `commandProxy.run`, which is the child's wait status alone. -/
theorem handleStdin_closes_pipes_before_interrupt (sigErr : Option String) :
    (handleStdin sigErr).take 4
      = [PEvent.copyStdin, PEvent.closeStdoutPipe, PEvent.closeStderrPipe, PEvent.signalProc]
    ∧ (handleStdin sigErr).count PEvent.signalProc = 1
    ∧ (handleStdin sigErr).count PEvent.closeStdoutPipe = 1
    ∧ (handleStdin sigErr).count PEvent.closeStderrPipe = 1
    ∧ ∀ (startErr : Option String) (wait : RunResult),
        (commandProxyRun startErr wait sigErr).2 = (commandProxyRun startErr wait none).2 := by
  rcases sigErr with _ | e <;>
    refine ⟨rfl, rfl, rfl, rfl, fun startErr wait => ?_⟩ <;>
    rcases startErr with _ | msg <;> rfl

/-- C6 (counterexample): the claim says the `"Enter task name: "` prompt
is written before any admission acquisition is attempted; in the code the
non-blocking `TryAcquire` is the first event of every connection and, on
contention, the waiting notice is written before the prompt.  At this
concrete environment the first admission attempt has index 0 and the
first prompt write index 3. -/
theorem prompt_is_not_before_admission :
    ((doHandleConnection envContended "/binaries" "/submits").1.findIdx? fun e =>
        isAdmissionPhaseEvent e) = some 0
    ∧ ((doHandleConnection envContended "/binaries" "/submits").1.findIdx? fun e =>
        isPromptWrite e) = some 3 := by decide

/-- C6 (amended): the session-handler states occur in the order
AwaitingAdmission, then Greeting, then ReadingTask: admission is
attempted (and, on contention, the waiting notice written) before the
prompt, and the prompt is the next event after the admission phase on
every admitted path; a failed admission never reaches the prompt. -/
theorem admission_precedes_prompt (env : Env) (b s : String) :
    (env.tryAcquireOk = true →
      (doHandleConnection env b s).1.take 2
        = [Event.tryAcquire true, Event.write "Enter task name: "])
    ∧ (env.tryAcquireOk = false → env.acquireResult = .ok () →
      (doHandleConnection env b s).1.take 4
        = [Event.tryAcquire false, Event.write "Waiting for an available runner...\n",
           Event.blockAcquire true, Event.write "Enter task name: "])
    ∧ (env.tryAcquireOk = false → ∀ msg, env.acquireResult = .error msg →
      (doHandleConnection env b s).1
        = [Event.tryAcquire false, Event.write "Waiting for an available runner...\n",
           Event.blockAcquire false]) := by
  refine ⟨fun hta => ?_, fun hta ha => ?_, fun hta msg ha => ?_⟩
  · rw [doHandleConnection_trace_tryAcquireOk env b s hta]
    rfl
  · rw [doHandleConnection_trace_blockOk env b s (by simp [hta]) ha]
    rfl
  · exact doHandleConnection_trace_blockFail env b s (by simp [hta]) msg ha

/-- Witness for the amended C6 at a concrete contended connection. -/
theorem admission_precedes_prompt_witness :
    (doHandleConnection envContended "/binaries" "/submits").1.take 4
      = [Event.tryAcquire false, Event.write "Waiting for an available runner...\n",
         Event.blockAcquire true, Event.write "Enter task name: "] :=
  (admission_precedes_prompt envContended "/binaries" "/submits").2.1 rfl rfl

/-- C5: in the accept loop the `go checker.handleConnection` dispatch is
unconditional, so an iteration whose `Accept` failed (with error budget
still positive, here the full 10) still starts a session handler and
hands it the nil connection `Accept` returned alongside its error; the
budget bookkeeping itself behaves as claimed (a failure with positive
budget decrements it by one, the panic fires exactly when the budget is
zero, a success restores one unit and never exceeds the initial value). -/
theorem failed_accept_still_starts_handler :
    acceptIteration 10 false
      = { fatalPanic := false, newBudget := 9, handlerStarted := true, handlerConnIsNil := true }
    ∧ acceptIteration 0 false
      = { fatalPanic := true, newBudget := 0, handlerStarted := false, handlerConnIsNil := false }
    ∧ (∀ cur, (acceptIteration cur false).fatalPanic = decide (cur = 0))
    ∧ (∀ cur, (acceptIteration (cur + 1) false).newBudget = cur)
    ∧ (∀ cur, (acceptIteration (cur + 1) false).handlerStarted = true
        ∧ (acceptIteration (cur + 1) false).handlerConnIsNil = true)
    ∧ (∀ cur, (acceptIteration cur true).newBudget
        = if cur < acceptErrorsBudget then cur + 1 else cur)
    ∧ (∀ cur, (acceptIteration cur true).newBudget ≤ max cur acceptErrorsBudget)
    ∧ (∀ cur, (acceptIteration cur true).handlerStarted = true
        ∧ (acceptIteration cur true).handlerConnIsNil = false) := by
  refine ⟨rfl, rfl, fun cur => ?_, fun cur => ?_, fun cur => ⟨?_, ?_⟩, fun cur => rfl,
    fun cur => ?_, fun cur => ⟨rfl, rfl⟩⟩
  · by_cases h : cur = 0 <;> simp [acceptIteration, h]
  · simp [acceptIteration]
  · simp [acceptIteration]
  · simp [acceptIteration]
  · show (if cur < acceptErrorsBudget then cur + 1 else cur) ≤ max cur acceptErrorsBudget
    by_cases hlt : cur < acceptErrorsBudget
    · rw [if_pos hlt]
      omega
    · rw [if_neg hlt]
      omega

end Crashme

/-! ## Task-line protocol errors (C8) -/

namespace Crashme

lemma slowReadAux_no_newline (l : List Char) :
    ∀ acc : List Char, (∀ c ∈ l, ¬c = '\n') →
      slowReadAux l acc = (if acc.length + l.length = MAX_FIRST_LINE_SIZE
        then .error "too long first line" else .error "EOF before new line") := by
  induction l with
  | nil =>
    intro acc _
    simp [slowReadAux]
  | cons c t ih =>
    intro acc hnl
    have hc : ¬c = '\n' := hnl c (by simp)
    simp only [slowReadAux]
    rw [if_neg hc]
    rw [ih (acc ++ [c]) fun c' hc' => hnl c' (by simp [hc'])]
    have hlen : (acc ++ [c]).length + t.length = acc.length + (c :: t).length := by
      simp
      omega
    rw [hlen]

lemma afterPrompt_read_error (env : Env) (b s e : String)
    (h : slowReadFirstLine ((env.connInput.take MAX_INPUT_SIZE).take MAX_FIRST_LINE_SIZE)
      = .error e) :
    afterPrompt env b s = ([], .error ("failed to read first line: " ++ e)) := by
  unfold afterPrompt
  rw [h]

lemma createFile_mem_trace (env : Env) (b s p : String)
    (hm : Event.createFile p ∈ (doHandleConnection env b s).1) :
    Event.createFile p ∈ (afterPrompt env b s).1 := by
  by_cases hta : env.tryAcquireOk
  · rw [doHandleConnection_trace_tryAcquireOk env b s hta] at hm
    simpa using hm
  · rcases ha : env.acquireResult with msg | ⟨⟩
    · rw [doHandleConnection_trace_blockFail env b s hta msg ha] at hm
      simp at hm
    · rw [doHandleConnection_trace_blockOk env b s hta ha] at hm
      simpa using hm

/-- C8: a task line that reaches the 100-byte bound without a newline
fails with `"too long first line"`; an input exhausted before a newline
(fewer than 100 bytes seen) fails with `"EOF before new line"`; and
whenever the line read fails, the admitted handler's result is the
wrapped protocol error written back to the client while no process is
ever run and no submission file is ever created. -/
theorem task_line_protocol_errors :
    (∀ l : List Char, l.length = MAX_FIRST_LINE_SIZE → (∀ c ∈ l, ¬c = '\n') →
      slowReadFirstLine l = .error "too long first line")
    ∧ (∀ l : List Char, l.length < MAX_FIRST_LINE_SIZE → (∀ c ∈ l, ¬c = '\n') →
      slowReadFirstLine l = .error "EOF before new line")
    ∧ (∀ (env : Env) (b s e : String),
        slowReadFirstLine ((env.connInput.take MAX_INPUT_SIZE).take MAX_FIRST_LINE_SIZE)
          = .error e →
        (admitted env = true →
          (doHandleConnection env b s).2 = .error ("failed to read first line: " ++ e))
        ∧ (∀ p, Event.runProcess p ∉ (doHandleConnection env b s).1)
        ∧ (∀ p, Event.createFile p ∉ (doHandleConnection env b s).1)) := by
  refine ⟨fun l hlen hnl => ?_, fun l hlen hnl => ?_, fun env b s e hread => ?_⟩
  · unfold slowReadFirstLine
    rw [slowReadAux_no_newline l [] hnl]
    simp [hlen]
  · unfold slowReadFirstLine
    rw [slowReadAux_no_newline l [] hnl]
    have : ¬(List.length ([] : List Char) + l.length = MAX_FIRST_LINE_SIZE) := by
      simp
      omega
    rw [if_neg this]
  · have hap := afterPrompt_read_error env b s e hread
    refine ⟨fun hadm => ?_, fun p hm => ?_, fun p hm => ?_⟩
    · by_cases hta : env.tryAcquireOk
      · rw [doHandleConnection_result_tryAcquireOk env b s hta, hap]
      · rcases ha : env.acquireResult with msg | ⟨⟩
        · exfalso
          unfold admitted at hadm
          rw [ha] at hadm
          simp [hta] at hadm
        · rw [doHandleConnection_result_blockOk env b s hta ha, hap]
    · obtain ⟨hmem, _⟩ := runProcess_mem_trace env b s p hm
      rw [hap] at hmem
      simp at hmem
    · have hmem := createFile_mem_trace env b s p hm
      rw [hap] at hmem
      simp at hmem

/-- Witness for C8: a 100-byte newline-free line is rejected as too long,
a short truncated input as EOF, and the handler at such a connection
fails with the wrapped protocol error. -/
theorem task_line_protocol_errors_witness :
    slowReadFirstLine (List.replicate 100 'a') = .error "too long first line"
    ∧ slowReadFirstLine "aes".data = .error "EOF before new line"
    ∧ (doHandleConnection envTooLongLine "/binaries" "/submits").2
        = .error ("failed to read first line: " ++ "too long first line") :=
  ⟨task_line_protocol_errors.1 (List.replicate 100 'a') (by decide) (by decide),
   task_line_protocol_errors.2.1 "aes".data (by decide) (by decide),
   (task_line_protocol_errors.2.2 envTooLongLine "/binaries" "/submits" "too long first line"
     (by decide)).1 rfl⟩

end Crashme

/-! ## Path traversal (C3), flag client (C7), scorer (C9, C10) -/

namespace Crashme

/-- C3: no rejection of path separators or dot-dot components happens
before the task-to-path mapping.  The identifier `x/../../etc/passwd`
resolves to `/etc/passwd`, which does not lie under the `/binaries`
directory, and a connection supplying it runs that outside executable
(when it is a regular file); an ordinary identifier resolves inside the
directory, so the escape is caused purely by the missing rejection. -/
theorem traversal_task_resolves_outside_binaries_directory :
    resolveExecutablePath "/binaries" "x/../../etc/passwd" = "/etc/passwd"
    ∧ ¬"/etc/passwd".data.take "/binaries".data.length = "/binaries".data
    ∧ Event.runProcess "/etc/passwd" ∈ (doHandleConnection envTraversal "/binaries" "/submits").1
    ∧ resolveExecutablePath "/binaries" "some_task" = "/binaries/ctf_some_task" := by
  decide

lemma containsSub_append_left (pre m : String) : containsSub (pre ++ m) m = true := by
  unfold containsSub
  rw [List.any_eq_true]
  refine ⟨pre.data.length, ?_, ?_⟩
  · rw [List.mem_range]
    show pre.data.length < (pre.data ++ m.data).length + 1
    simp
    omega
  · show decide ((((pre.data ++ m.data).drop pre.data.length).take m.data.length) = m.data) = true
    rw [List.drop_left, List.take_length]
    simp

/-- C7 (amended): every attempt whose HTTP round trip fails (transport
error or non-success response body) is retried while the backoff policy's
15-second elapsed-time budget is not exhausted, and once it is exhausted
the last attempt's error is returned to the caller; a non-success
response produces the error `"server error: <msg>"`, so the
server-reported message appears verbatim in the final error handed to
the session handler -- but the handler reports any flag-fetch failure to
the client only as the fixed "failed to fetch flag, try again a few
minutes later" text. -/
theorem fetchFlag_retries_and_error_not_exposed_to_client :
    (∀ (attempts : Nat → Attempt) (elapsedMs : Nat → Nat) (i fuel : Nat) (e : String),
      doFetchFlag (attempts i) = .error e →
        (nextBackOffStops (elapsedMs i) = false →
          backoffRetry (fun j => doFetchFlag (attempts j)) elapsedMs i (fuel + 1)
            = backoffRetry (fun j => doFetchFlag (attempts j)) elapsedMs (i + 1) fuel)
        ∧ (nextBackOffStops (elapsedMs i) = true →
          backoffRetry (fun j => doFetchFlag (attempts j)) elapsedMs i (fuel + 1)
            = some (.error e)))
    ∧ (∀ f m, doFetchFlag (.response false f m) = .error ("server error: " ++ m)
        ∧ containsSub ("server error: " ++ m) m = true)
    ∧ (∀ m, doFetchFlag (.transportErr m) = .error m)
    ∧ (∀ (env : Env) (b s msg t : String), env.flagResult = .error msg →
        Event.fetchFlagCall t ∈ (doHandleConnection env b s).1 →
        (doHandleConnection env b s).2
          = .error "failed to fetch flag, try again a few minutes later") := by
  refine ⟨fun attempts elapsedMs i fuel e he => ⟨fun hs => ?_, fun hs => ?_⟩,
    fun f m => ⟨rfl, containsSub_append_left _ m⟩, fun m => rfl,
    fun env b s msg t hf hm => ?_⟩
  · simp only [backoffRetry]
    rw [he]
    simp [hs]
  · simp only [backoffRetry]
    rw [he]
    simp [hs]
  · obtain ⟨hmem, hres⟩ := fetch_mem_trace env b s t hm
    rw [hres]
    exact afterPrompt_result_flag_error env b s msg t hf hmem

/-- Witness for the amended C7 at a concrete crashed run whose flag
fetch failed: the client-visible report is the fixed message. -/
theorem fetchFlag_retries_and_error_not_exposed_to_client_witness :
    (doHandleConnection envCrashFlagFail "/binaries" "/submits").2
      = .error "failed to fetch flag, try again a few minutes later" :=
  fetchFlag_retries_and_error_not_exposed_to_client.2.2.2 envCrashFlagFail "/binaries" "/submits"
    "server error: boom" "aes" rfl (by decide)

/-- C7 (counterexample): an always-failing remote whose last error is the
server-reported `"server error: boom"`.  `fetchFlag` surfaces it to the
session handler, but the client-visible error is the fixed
"try again a few minutes later" text, which does not contain the server
message -- refuting the claim that the server-reported error string is
exposed to the client alongside that report. -/
theorem server_error_message_not_shown_to_client :
    fetchFlag (fun _ => .response false "" "boom") (fun i => 16000 * i) 5
      = some (.error "server error: boom")
    ∧ envCrashFlagFail.flagResult = .error "server error: boom"
    ∧ (doHandleConnection envCrashFlagFail "/binaries" "/submits").2
        = .error "failed to fetch flag, try again a few minutes later"
    ∧ containsSub "failed to fetch flag, try again a few minutes later" "boom" = false := by
  decide

end Crashme

namespace Scorer

/-- C9: `scorePipeline`'s interpolation multiplier is
`0.5 + 0.5*(t-deadline)/week`, which equals one half AT the deadline and
grows to full credit one week later -- the opposite of the claimed
monotone decay from full credit at the deadline down to half credit one
week after (while the outer branches do give full credit strictly before
the deadline, half credit beyond one week, and 0 to unsuccessful
pipelines).  With score 100 and deadline at time 0: one second before
the deadline scores 100, at the deadline 50, half a week late 75, one
week late 100, just past a week 50. -/
theorem scorePipeline_grows_after_deadline :
    scorePipeline 100 0 ⟨"t", "success", -1⟩ = 100
    ∧ scorePipeline 100 0 ⟨"t", "success", 0⟩ = 50
    ∧ scorePipeline 100 0 ⟨"t", "success", 302400⟩ = 75
    ∧ scorePipeline 100 0 ⟨"t", "success", 604800⟩ = 100
    ∧ scorePipeline 100 0 ⟨"t", "success", 604801⟩ = 50
    ∧ scorePipeline 100 0 ⟨"t", "failed", 302400⟩ = 0 := by
  refine ⟨?_, ?_, ?_, ?_, ?_, ?_⟩
  · norm_num [scorePipeline, ratTrunc, weekSeconds, pipelineStatusSuccess]
  · norm_num [scorePipeline, ratTrunc, weekSeconds, pipelineStatusSuccess]
  · norm_num [scorePipeline, ratTrunc, weekSeconds, pipelineStatusSuccess]
  · norm_num [scorePipeline, ratTrunc, weekSeconds, pipelineStatusSuccess]
  · norm_num [scorePipeline, ratTrunc, weekSeconds, pipelineStatusSuccess]
    decide
  · norm_num [scorePipeline, ratTrunc, weekSeconds, pipelineStatusSuccess]
    decide

/-- C10: the map-building loop of `CalcScores` stores `[nil]` for a new
task and discards the result of `append`, so a user's recorded successful
pipeline never enters the map: the entry for its task is the single nil
pointer, and the per-task status/score computation dereferences that nil
pointer (a runtime panic) instead of classifying the best pipeline. -/
theorem calcScores_drops_pipelines_and_derefs_nil :
    buildPipelinesMap [⟨"t1", "success", 0⟩] = [("t1", [none])]
    ∧ taskStatusScore (buildPipelinesMap [⟨"t1", "success", 0⟩]) "t1" 100 0
        = some (.error nilDeref)
    ∧ pipelineLess none none = .error nilDeref := by
  refine ⟨by decide, by decide, rfl⟩

end Scorer
